import Mathlib

/-!
Verification of the JSON stdin/stdout wrapper around the Claude Agent SDK
(`claude_sdk_wrapper.py`).  The wrapper keeps three pieces of state
(`self.client`, `self.receive_task`, `self.tool_result_futures`), reads one
JSON command per input line, dispatches it to a handler, and each handler
writes response / error events to stdout.  Tool handlers registered with the
engine emit `tool_invocation` events and suspend on a future stored in
`tool_result_futures` until a `tool_result` command resolves it.

The embedding below is a shallow one: each handler becomes a pure function
from the wrapper state (plus oracle booleans standing for the outcomes of the
opaque engine calls `connect`, `query`, `interrupt`, `disconnect`) to the new
state together with the list of events it writes, in order.  Python object
identities for the client and the background drain task are modelled by a
fresh-handle counter `next_handle`; the side effects `task.cancel()` and
`client.disconnect()` are recorded in the lists `cancelled_tasks` and
`disconnected_clients` so that theorems can speak about them.  A second,
finer model (`ccMainSegs` / `runSched`) captures the cooperative scheduling
of `handle_create_client` against the background drain task: each task is a
list of atomic segments separated by its `await` suspension points, and an
arbitrary schedule interleaves whole segments.
-/

namespace Wrapper

/-- A content item inside an emitted `message` event
(`claude_sdk_wrapper.py` lines 54-72). -/
inductive ContentItem where
  | text (text : String)
  | tool_use (id : String) (name : String) (input : String)
  | tool_result (tool_use_id : String) (content : String) (is_error : Bool)
deriving DecidableEq, Repr

/-- An event written to stdout by `write_output`
(`claude_sdk_wrapper.py` lines 38-40 and the call sites). -/
inductive Event where
  | response (command : String)
  | error (command : Option String) (message : String)
  | message (message_type : String) (content : List ContentItem)
  | message_data (message_type : String) (data : String)
  | tool_invocation (tool_use_id : String) (name : String) (input : String)
deriving DecidableEq, Repr

/-- The state of one `asyncio.Future` stored in `tool_result_futures`:
still pending, or already resolved (`future.set_result`, line 218) with the
content / is_error payload the awaiter will receive. -/
inductive SlotState where
  | pending
  | resolved (content : String) (is_error : Bool)
deriving DecidableEq, Repr

/-- The in-memory state of a `ClaudeSDKWrapper` instance
(`__init__`, lines 33-36), plus the bookkeeping fields of the model:
`next_handle` allocates fresh identities for client and task objects, and
`cancelled_tasks` / `disconnected_clients` record which task objects had
`.cancel()` called and which client objects had `.disconnect()` awaited. -/
structure WrapperState where
  client : Option Nat
  receive_task : Option Nat
  tool_result_futures : List (String × SlotState)
  next_handle : Nat
  cancelled_tasks : List Nat
  disconnected_clients : List Nat
deriving DecidableEq, Repr

/-- The state right after `__init__`: no client, no drain task, empty
future registry. -/
def initState : WrapperState :=
  { client := none, receive_task := none, tool_result_futures := [],
    next_handle := 0, cancelled_tasks := [], disconnected_clients := [] }

/-- `self.tool_result_futures.get(tool_use_id)` on the association-list model
of the dict (first matching key wins; handler registration only ever adds
fresh keys). -/
def lookupSlot : List (String × SlotState) → String → Option SlotState
  | [], _ => none
  | (k, v) :: rest, i => if k = i then some v else lookupSlot rest i

/-- `future.set_result(...)` on the slot keyed by `i`: the dict keys are
unchanged, only the future object stored under `i` changes state. -/
def setSlot : List (String × SlotState) → String → SlotState → List (String × SlotState)
  | [], _, _ => []
  | (k, v) :: rest, i, w => if k = i then (k, w) :: rest else (k, v) :: setSlot rest i w

/-- Identifier generation of `create_tool_handler` (line 87):
`f"tool_[id(args)]_[loop.time()]"` where `args_id` is the decimal rendering
of `id(args)` and `loop_time` the rendering of the event-loop clock value.
Both are environment-supplied; the wrapper does nothing to force freshness. -/
def genToolUseId (args_id : String) (loop_time : String) : String :=
  "tool_" ++ args_id ++ "_" ++ loop_time

/-- The identifiers issued across a trace of tool invocations, each described
by the `id(args)` value and the clock reading the handler observed. -/
def issuedIds (calls : List (String × String)) : List String :=
  calls.map fun c => genToolUseId c.1 c.2

/-- The synchronous first part of `generic_tool_handler` (lines 85-99): emit
the `tool_invocation` event, then register a fresh pending future under the
generated identifier.  No suspension occurs between the two. -/
def toolHandlerStart (s : WrapperState) (tool_name : String) (args_id : String)
    (loop_time : String) (input : String) : WrapperState × List Event :=
  let tid := genToolUseId args_id loop_time
  ({ s with tool_result_futures := s.tool_result_futures ++ [(tid, SlotState.pending)] },
   [Event.tool_invocation tid tool_name input])

/-- `handle_create_client` (lines 116-167).  `setupOk` is the outcome of
everything before the client assignment at line 153 (the
`ClaudeAgentOptions(**options)` conversion and the tool-definition
processing); `connectOk` the outcome of `await self.client.connect()`;
`queryOk` the outcome of `await self.client.query(initial_prompt)` when an
initial prompt is present.  Note the order in the source: the client
attribute is assigned (line 153) before `connect()` is awaited, the drain
task is started (line 159) and the success response written (line 161)
before the initial prompt is submitted (line 165), and the single `except`
clause (line 166) turns any raised error into one error event. -/
def handle_create_client (s : WrapperState) (setupOk : Bool) (setupErr : String)
    (connectOk : Bool) (connectErr : String) (hasPrompt : Bool) (queryOk : Bool)
    (queryErr : String) : WrapperState × List Event :=
  if setupOk = false then
    (s, [Event.error (some "create_client") setupErr])
  else
    let s1 : WrapperState :=
      { s with client := some s.next_handle, next_handle := s.next_handle + 1 }
    if connectOk = false then
      (s1, [Event.error (some "create_client") connectErr])
    else
      let s2 : WrapperState :=
        { s1 with receive_task := some s1.next_handle, next_handle := s1.next_handle + 1 }
      if hasPrompt && !queryOk then
        (s2, [Event.response "create_client", Event.error (some "create_client") queryErr])
      else
        (s2, [Event.response "create_client"])

/-- `handle_query` (lines 169-179); the prompt itself does not influence the
wrapper state, and `queryOk` is the outcome of `await self.client.query`. -/
def handle_query (s : WrapperState) ( _prompt : String) (queryOk : Bool)
    (queryErr : String) : WrapperState × List Event :=
  match s.client with
  | none => (s, [Event.error (some "query") "Client not created"])
  | some _ =>
    if queryOk then (s, [Event.response "query"])
    else (s, [Event.error (some "query") queryErr])

/-- `handle_interrupt` (lines 181-191). -/
def handle_interrupt (s : WrapperState) (interruptOk : Bool)
    (interruptErr : String) : WrapperState × List Event :=
  match s.client with
  | none => (s, [Event.error (some "interrupt") "Client not created"])
  | some _ =>
    if interruptOk then (s, [Event.response "interrupt"])
    else (s, [Event.error (some "interrupt") interruptErr])

/-- `handle_disconnect` (lines 193-211): with no client, one error event;
otherwise cancel the drain task when present and not done (awaiting it can
only raise `CancelledError`, which is swallowed, since `receive_messages`
catches every other exception itself), then await `client.disconnect()`
whose outcome is `disconnectOk`.  Neither `self.client` nor
`self.receive_task` nor `self.tool_result_futures` is reassigned. -/
def handle_disconnect (s : WrapperState) (taskDone : Bool) (disconnectOk : Bool)
    (disconnectErr : String) : WrapperState × List Event :=
  match s.client with
  | none => (s, [Event.error (some "disconnect") "Client not created"])
  | some c =>
    let s1 : WrapperState :=
      match s.receive_task with
      | some t => if taskDone then s else { s with cancelled_tasks := s.cancelled_tasks ++ [t] }
      | none => s
    if disconnectOk then
      ({ s1 with disconnected_clients := s1.disconnected_clients ++ [c] },
       [Event.response "disconnect"])
    else
      (s1, [Event.error (some "disconnect") disconnectErr])

/-- `handle_tool_result` (lines 213-226): look the future up by identifier;
if present and not yet done, set its result and write one success response;
otherwise write one error event naming the identifier.  No entry is added,
removed or cleared here. -/
def handle_tool_result (s : WrapperState) (tool_use_id : String) (content : String)
    (is_error : Bool) : WrapperState × List Event :=
  match lookupSlot s.tool_result_futures tool_use_id with
  | some SlotState.pending =>
    ({ s with tool_result_futures :=
        setSlot s.tool_result_futures tool_use_id (SlotState.resolved content is_error) },
     [Event.response "tool_result"])
  | _ =>
    (s, [Event.error (some "tool_result")
          ("No pending tool invocation with ID: " ++ tool_use_id)])

/-- The cleanup at the end of `run` (lines 281-285), reached on EOF or after
a fatal read error: cancel the drain task when present and not done, and
disconnect the client when present.  `tool_result_futures` is not touched. -/
def run_cleanup (s : WrapperState) (taskDone : Bool) : WrapperState :=
  let s1 : WrapperState :=
    match s.receive_task with
    | some t => if taskDone then s else { s with cancelled_tasks := s.cancelled_tasks ++ [t] }
    | none => s
  match s1.client with
  | some c => { s1 with disconnected_clients := s1.disconnected_clients ++ [c] }
  | none => s1

/-- A decoded command as dispatched by `process_command` (lines 228-251),
bundled with the oracle outcomes of the opaque engine calls its handler will
make.  `unknown` is the fall-through branch at line 251. -/
inductive Command where
  | create_client (setupOk : Bool) (setupErr : String) (connectOk : Bool)
      (connectErr : String) (hasPrompt : Bool) (queryOk : Bool) (queryErr : String)
  | query (prompt : String) (queryOk : Bool) (queryErr : String)
  | interrupt (interruptOk : Bool) (interruptErr : String)
  | disconnect (taskDone : Bool) (disconnectOk : Bool) (disconnectErr : String)
  | tool_result (tool_use_id : String) (content : String) (is_error : Bool)
  | unknown (name : String)
deriving DecidableEq, Repr

/-- `process_command` (lines 228-251): route to the matching handler, or
emit one `Unknown command` error. -/
def process_command (s : WrapperState) : Command → WrapperState × List Event
  | Command.create_client so se co ce hp qo qe => handle_create_client s so se co ce hp qo qe
  | Command.query p qo qe => handle_query s p qo qe
  | Command.interrupt io ie => handle_interrupt s io ie
  | Command.disconnect td dok de => handle_disconnect s td dok de
  | Command.tool_result tid c e => handle_tool_result s tid c e
  | Command.unknown n => (s, [Event.error none ("Unknown command: " ++ n)])

/-- Events that count as the response to a command: a success response or an
error event (message and tool_invocation events are streamed by other tasks,
never written by `process_command` itself). -/
def isCmdResponse : Event → Bool
  | Event.response _ => true
  | Event.error _ _ => true
  | _ => false

/-- How many response-or-error events a handler run emitted. -/
def respCount (evts : List Event) : Nat :=
  (evts.filter isCmdResponse).length

/-- The one dispatch case in which a handler emits two response-class events
for a single command: `handle_create_client` with an initial prompt whose
submission at line 165 raises after the success response of line 161 was
already written. -/
def doubleRespCase : Command → Bool
  | Command.create_client true _ true _ true false _ => true
  | _ => false

/-- Wrapper state with two pending invocations `A` and `B`, the situation of
Scenario C in the specification. -/
def twoPendingState : WrapperState :=
  { client := some 0, receive_task := some 1,
    tool_result_futures := [("A", SlotState.pending), ("B", SlotState.pending)],
    next_handle := 2, cancelled_tasks := [], disconnected_clients := [] }

/-- Wrapper state with an active session and one pending invocation `A`. -/
def onePendingState : WrapperState :=
  { client := some 0, receive_task := some 1,
    tool_result_futures := [("A", SlotState.pending)],
    next_handle := 2, cancelled_tasks := [], disconnected_clients := [] }

/-- One atomic segment of a task in the cooperative-scheduling model: the
events it writes, in order, and whether it starts the background drain task
(`asyncio.create_task`, line 159).  Segment boundaries are exactly the
`await` suspension points of the source. -/
structure CCSeg where
  emits : List Event
  spawns : Bool
deriving DecidableEq, Repr

/-- The atomic segments of `handle_create_client` (lines 116-167), split at
its `await` points.  With a setup failure the whole call is one segment that
writes one error event.  Otherwise the first segment (through
`await self.client.connect()`, line 156) writes nothing; the segment after a
failed connect writes one error event; the segment after a successful
connect starts the drain task and writes the success response with no
suspension in between (lines 159-161); and when an initial prompt is present
a final segment after `await self.client.query(...)` (line 165) writes
either nothing or the error event from the `except` clause. -/
def ccMainSegs (setupOk : Bool) (setupErr : String) (connectOk : Bool) (connectErr : String)
    (hasPrompt : Bool) (queryOk : Bool) (queryErr : String) : List CCSeg :=
  if setupOk = false then
    [⟨[Event.error (some "create_client") setupErr], false⟩]
  else if connectOk = false then
    [⟨[], false⟩, ⟨[Event.error (some "create_client") connectErr], false⟩]
  else
    [⟨[], false⟩, ⟨[Event.response "create_client"], true⟩] ++
      (if hasPrompt then
        [⟨if queryOk then [] else [Event.error (some "create_client") queryErr], false⟩]
      else [])

/-- Scheduler state for one `create_client` handled against the background
drain task: the remaining segments of the handler, whether the drain task
has been started, the remaining drain segments (each the events one
iteration of `receive_messages` writes after its `await`), and the output
stream written so far. -/
structure RunState where
  mainSegs : List CCSeg
  spawned : Bool
  drainSegs : List (List Event)
  out : List Event
deriving DecidableEq, Repr

/-- Run one atomic segment of the chosen task.  Choosing the drain task
before it was spawned, or a task with no segments left, is a no-op: tasks
only ever run whole segments between suspension points. -/
def stepTask : Bool → RunState → RunState
  | true, st =>
    match st.mainSegs with
    | [] => st
    | seg :: rest =>
      { st with mainSegs := rest, spawned := st.spawned || seg.spawns, out := st.out ++ seg.emits }
  | false, st =>
    match st.spawned, st.drainSegs with
    | true, es :: rest => { st with drainSegs := rest, out := st.out ++ es }
    | _, _ => st

/-- Run an arbitrary schedule of task choices. -/
def runSched (sched : List Bool) (st : RunState) : RunState :=
  match sched with
  | [] => st
  | b :: bs => runSched bs (stepTask b st)

/-- The single response-or-error event `handle_create_client` writes for the
`create_client` command itself. -/
def isCreateClientResp : Event → Bool
  | Event.response "create_client" => true
  | Event.error (some "create_client") _ => true
  | _ => false

/-- Events that belong to the session stream: translated engine messages and
tool invocation announcements, the events only the drain task and the tool
handlers write. -/
def isSessionEvent : Event → Bool
  | Event.message _ _ => true
  | Event.message_data _ _ => true
  | Event.tool_invocation _ _ _ => true
  | _ => false

/-- The scheduler invariant behind claim C8: nothing in the output stream up
to the first `create_client` response-or-error is a session event, the drain
task can only have been spawned after that response entered the stream, and
the remaining handler segments write no session events while any spawning
segment also writes the response. -/
def RunInv (st : RunState) : Prop :=
  ((st.out.takeWhile fun x => !isCreateClientResp x).all fun e => !isSessionEvent e) = true ∧
  (st.spawned = true → st.out.any isCreateClientResp = true) ∧
  (∀ seg ∈ st.mainSegs,
    (seg.emits.all fun e => !isSessionEvent e) = true ∧
    (seg.spawns = true → seg.emits.any isCreateClientResp = true))

/-- A content block of a drained `AssistantMessage` (lines 54-72):
the three kinds the translation loop recognises, and `other` for any block
class the `isinstance` chain does not match (a thinking block, say). -/
inductive Block where
  | text (text : String)
  | tool_use (id : String) (name : String) (input : String)
  | tool_result (tool_use_id : String) (content : String) (is_error : Bool)
  | other (kind : String)
deriving DecidableEq, Repr

/-- The body of the translation loop (lines 56-72): recognised blocks map to
one content item each; any other block matches no `isinstance` branch and
contributes nothing. -/
def translateBlock : Block → Option ContentItem
  | Block.text t => some (ContentItem.text t)
  | Block.tool_use i n inp => some (ContentItem.tool_use i n inp)
  | Block.tool_result tid c e => some (ContentItem.tool_result tid c e)
  | Block.other _ => none

/-- The events `receive_messages` writes for one drained `AssistantMessage`
(lines 54-78): exactly one `message` event whose content list collects the
translations of the recognised blocks, in order. -/
def assistantMessageEvents (blocks : List Block) : List Event :=
  [Event.message "AssistantMessage" (blocks.filterMap translateBlock)]

/-- Error events on the output stream. -/
def isErrorEvent : Event → Bool
  | Event.error _ _ => true
  | _ => false

/-- Association-list lemma: resolving the slot under a registered key leaves
that key registered and stores the new slot state. -/
theorem lookupSlot_setSlot_self (l : List (String × SlotState)) (k : String)
    (v w : SlotState) (h : lookupSlot l k = some w) :
    lookupSlot (setSlot l k v) k = some v := by
  induction l with
  | nil => simp [lookupSlot] at h
  | cons a t ih =>
    obtain ⟨ka, va⟩ := a
    by_cases hk : ka = k
    · simp [lookupSlot, setSlot, hk]
    · simp only [lookupSlot, setSlot, if_neg hk] at h ⊢
      exact ih h

/-- Association-list lemma: resolving the slot under one key does not change
the slot found under any other key. -/
theorem lookupSlot_setSlot_ne (l : List (String × SlotState)) (k k2 : String)
    (v : SlotState) (hne : k2 ≠ k) :
    lookupSlot (setSlot l k v) k2 = lookupSlot l k2 := by
  induction l with
  | nil => simp [lookupSlot, setSlot]
  | cons a t ih =>
    obtain ⟨ka, va⟩ := a
    by_cases hk : ka = k
    · subst hk
      have hne2 : ¬ (ka = k2) := fun hh => hne hh.symm
      simp [lookupSlot, setSlot, hne2]
    · simp only [setSlot, if_neg hk]
      by_cases hk2 : ka = k2
      · simp [lookupSlot, hk2]
      · simp only [lookupSlot, if_neg hk2]
        exact ih

/-- C5: a `tool_result` command whose identifier is registered and still
pending resolves exactly that slot to the given content / is_error payload,
emits the single success response, leaves the slot found under every other
identifier exactly as it was, and does not touch the client or drain-task
state. -/
theorem C5_tool_result_targets_exactly_one (s : WrapperState) (tid content : String)
    (is_error : Bool) (h : lookupSlot s.tool_result_futures tid = some SlotState.pending) :
    (handle_tool_result s tid content is_error).2 = [Event.response "tool_result"] ∧
    lookupSlot (handle_tool_result s tid content is_error).1.tool_result_futures tid =
      some (SlotState.resolved content is_error) ∧
    (∀ other : String, other ≠ tid →
      lookupSlot (handle_tool_result s tid content is_error).1.tool_result_futures other =
        lookupSlot s.tool_result_futures other) ∧
    (handle_tool_result s tid content is_error).1.client = s.client ∧
    (handle_tool_result s tid content is_error).1.receive_task = s.receive_task := by
  refine ⟨?_, ?_, ?_, ?_, ?_⟩ <;>
    simp only [handle_tool_result, h]
  · exact lookupSlot_setSlot_self _ _ _ _ h
  · intro other hne
    exact lookupSlot_setSlot_ne _ _ _ _ hne

/-- C5 witness: resolving `B` in a state where `A` and `B` are both pending
resolves `B` and leaves `A` pending. -/
theorem C5_tool_result_targets_exactly_one_witness :
    (handle_tool_result twoPendingState "B" "out" false).2 = [Event.response "tool_result"] ∧
    lookupSlot (handle_tool_result twoPendingState "B" "out" false).1.tool_result_futures "B" =
      some (SlotState.resolved "out" false) ∧
    lookupSlot (handle_tool_result twoPendingState "B" "out" false).1.tool_result_futures "A" =
      some SlotState.pending :=
  ⟨(C5_tool_result_targets_exactly_one twoPendingState "B" "out" false (by decide)).1,
   (C5_tool_result_targets_exactly_one twoPendingState "B" "out" false (by decide)).2.1,
   by
    have h2 := (C5_tool_result_targets_exactly_one twoPendingState "B" "out" false
      (by decide)).2.2.1 "A" (by decide)
    rw [h2]
    decide⟩

/-- C6: a `tool_result` command whose identifier is absent from the registry
or whose future is already resolved leaves the whole wrapper state unchanged
and emits exactly one error event whose text is
`No pending tool invocation with ID: ` followed by the identifier. -/
theorem C6_tool_result_unknown_id (s : WrapperState) (tid content : String)
    (is_error : Bool) (h : lookupSlot s.tool_result_futures tid ≠ some SlotState.pending) :
    handle_tool_result s tid content is_error =
      (s, [Event.error (some "tool_result")
            ("No pending tool invocation with ID: " ++ tid)]) := by
  unfold handle_tool_result
  rcases hl : lookupSlot s.tool_result_futures tid with _ | slot
  · simp
  · cases slot with
    | pending => exact absurd hl h
    | resolved c e => simp

/-- C6 witness: Scenario B of the specification, a `tool_result` for the
never-issued identifier `nope` in the freshly initialised state. -/
theorem C6_tool_result_unknown_id_witness :
    handle_tool_result initState "nope" "x" false =
      (initState, [Event.error (some "tool_result")
        ("No pending tool invocation with ID: " ++ "nope")]) :=
  C6_tool_result_unknown_id initState "nope" "x" false (by decide)

/-- C1: evaluation of the teardown paths at a state with the pending
invocation `A`.  `handle_disconnect` cancels the drain task, disconnects and
writes its success response while the future of `A` is still pending, and
the EOF cleanup of `run` likewise leaves it pending: no teardown path
resolves pending invocations with a failure payload. -/
theorem C1_teardown_leaves_pending_unresolved :
    (handle_disconnect onePendingState false true "").2 = [Event.response "disconnect"] ∧
    (handle_disconnect onePendingState false true "").1.tool_result_futures =
      [("A", SlotState.pending)] ∧
    (run_cleanup onePendingState false).tool_result_futures = [("A", SlotState.pending)] := by
  decide

/-- C2 counterexample: when `connect()` raises, exactly one error event is
written, but the client attribute was already assigned at line 153, so the
state is not the no-session state the claim describes. -/
theorem C2_connect_failure_leaves_client_set :
    (handle_create_client initState true "" false "Connection failed" false true "").2 =
      [Event.error (some "create_client") "Connection failed"] ∧
    (handle_create_client initState true "" false "Connection failed" false true "").1.client =
      some 0 ∧
    ¬ (handle_create_client initState true "" false "Connection failed" false true "").1 =
        initState := by
  decide

/-- C2 amended: every failing `create_client` writes exactly one error
event; the drain-task reference, the future registry and the bookkeeping
lists are unchanged; a setup (options) failure leaves the whole state
unchanged, but a connect failure leaves the client attribute overwritten
with the new, never-connected client. -/
theorem C2_create_client_failure_state (s : WrapperState) (setupOk : Bool)
    (setupErr : String) (connectOk : Bool) (connectErr : String) (hasPrompt queryOk : Bool)
    (queryErr : String) (h : setupOk = false ∨ connectOk = false) :
    (handle_create_client s setupOk setupErr connectOk connectErr hasPrompt queryOk queryErr).2 =
      [Event.error (some "create_client") (if setupOk then connectErr else setupErr)] ∧
    (handle_create_client s setupOk setupErr connectOk connectErr hasPrompt queryOk
        queryErr).1.receive_task = s.receive_task ∧
    (handle_create_client s setupOk setupErr connectOk connectErr hasPrompt queryOk
        queryErr).1.tool_result_futures = s.tool_result_futures ∧
    (setupOk = false →
      (handle_create_client s setupOk setupErr connectOk connectErr hasPrompt queryOk
        queryErr).1 = s) ∧
    (setupOk = true →
      (handle_create_client s setupOk setupErr connectOk connectErr hasPrompt queryOk
        queryErr).1.client = some s.next_handle) := by
  cases setupOk with
  | false => simp [handle_create_client]
  | true =>
    rcases h with h | h
    · exact absurd h (by decide)
    · subst h
      simp [handle_create_client]

/-- C2 amended witness: a connect failure from the fresh state. -/
theorem C2_create_client_failure_state_witness :
    (handle_create_client initState true "" false "boom" false true "").2 =
      [Event.error (some "create_client") (if true then "boom" else "")] ∧
    (handle_create_client initState true "" false "boom" false true "").1.receive_task =
      initState.receive_task :=
  ⟨(C2_create_client_failure_state initState true "" false "boom" false true "" (Or.inr rfl)).1,
   (C2_create_client_failure_state initState true "" false "boom" false true ""
     (Or.inr rfl)).2.1⟩

/-- C3 counterexample: a `create_client` command with an initial prompt
whose submission fails writes two response-class events for the one command,
the success response of line 161 followed by the error event of line 167. -/
theorem C3_create_client_double_response :
    (process_command initState
      (Command.create_client true "" true "" true false "query failed")).2 =
      [Event.response "create_client", Event.error (some "create_client") "query failed"] ∧
    respCount (process_command initState
      (Command.create_client true "" true "" true false "query failed")).2 = 2 := by
  decide

/-- C3 amended: every dispatched command makes its handler write exactly one
response-class event, except a `create_client` carrying an initial prompt
whose submission fails after a successful connect, which writes exactly two
(the success response, then the error). -/
theorem C3_exactly_one_response (s : WrapperState) (cmd : Command) :
    respCount (process_command s cmd).2 = (if doubleRespCase cmd then 2 else 1) := by
  cases cmd with
  | create_client so se co ce hp qo qe =>
    cases so <;> cases co <;> cases hp <;> cases qo <;>
      simp [process_command, handle_create_client, doubleRespCase, respCount, isCmdResponse]
  | query p qo qe =>
    rcases hc : s.client with _ | c <;> cases qo <;>
      simp [process_command, handle_query, hc, doubleRespCase, respCount, isCmdResponse]
  | interrupt io ie =>
    rcases hc : s.client with _ | c <;> cases io <;>
      simp [process_command, handle_interrupt, hc, doubleRespCase, respCount, isCmdResponse]
  | disconnect td dok de =>
    rcases hc : s.client with _ | c <;> rcases ht : s.receive_task with _ | t <;>
      cases td <;> cases dok <;>
      simp [process_command, handle_disconnect, hc, ht, doubleRespCase, respCount, isCmdResponse]
  | tool_result tid cc ee =>
    rcases hl : lookupSlot s.tool_result_futures tid with _ | slot
    · simp [process_command, handle_tool_result, hl, doubleRespCase, respCount, isCmdResponse]
    · cases slot <;>
        simp [process_command, handle_tool_result, hl, doubleRespCase, respCount, isCmdResponse]
  | unknown n =>
    simp [process_command, doubleRespCase, respCount, isCmdResponse]

/-- C4: the identifier is a pure rendering of the identity hash of the args
dict and the event-loop clock reading; a trace in which a later invocation
observes the same identity hash (the address was reused after the earlier
args dict was collected) and the same clock reading (finite clock
resolution) is issued the same identifier twice, so the issued identifiers
are not collision-free. -/
theorem C4_identifier_collision :
    issuedIds [("5", "10.0"), ("5", "10.0")] = ["tool_5_10.0", "tool_5_10.0"] ∧
    ¬ (issuedIds [("5", "10.0"), ("5", "10.0")]).Nodup := by
  decide

/-- C7 counterexample: with no session and no pending invocation, a
`tool_result` command is answered not with the no-session message
`Client not created` that `query`, `interrupt` and `disconnect` use, but
with the no-pending-invocation message: `handle_tool_result` never checks
`self.client`. -/
theorem C7_tool_result_not_no_session_message :
    handle_tool_result initState "nope" "x" false =
      (initState,
       [Event.error (some "tool_result") "No pending tool invocation with ID: nope"]) ∧
    ("No pending tool invocation with ID: nope" : String) ≠ "Client not created" := by
  decide

/-- C7 amended: with no client, `query`, `interrupt` and `disconnect` each
write exactly one error event with the no-session message
`Client not created` and leave the state untouched, while `tool_result`
(whose handler never consults `self.client`) writes exactly one error event
with the no-pending-invocation message and also leaves the state
untouched. -/
theorem C7_no_session_commands (s : WrapperState) (prompt : String) (queryOk : Bool)
    (queryErr : String) (interruptOk : Bool) (interruptErr : String)
    (taskDone disconnectOk : Bool) (disconnectErr : String) (tid content : String)
    (is_error : Bool) (hclient : s.client = none) :
    handle_query s prompt queryOk queryErr =
      (s, [Event.error (some "query") "Client not created"]) ∧
    handle_interrupt s interruptOk interruptErr =
      (s, [Event.error (some "interrupt") "Client not created"]) ∧
    handle_disconnect s taskDone disconnectOk disconnectErr =
      (s, [Event.error (some "disconnect") "Client not created"]) ∧
    (s.tool_result_futures = [] →
      handle_tool_result s tid content is_error =
        (s, [Event.error (some "tool_result")
              ("No pending tool invocation with ID: " ++ tid)])) := by
  refine ⟨?_, ?_, ?_, ?_⟩
  · simp [handle_query, hclient]
  · simp [handle_interrupt, hclient]
  · simp [handle_disconnect, hclient]
  · intro hf
    simp [handle_tool_result, hf, lookupSlot]

/-- C7 amended witness: the fresh state, one projection per handler kind. -/
theorem C7_no_session_commands_witness :
    handle_query initState "hi" true "" =
      (initState, [Event.error (some "query") "Client not created"]) ∧
    handle_tool_result initState "nope2" "x" false =
      (initState, [Event.error (some "tool_result")
        ("No pending tool invocation with ID: " ++ "nope2")]) :=
  ⟨(C7_no_session_commands initState "hi" true "" true "" false true "" "nope2" "x" false
      rfl).1,
   (C7_no_session_commands initState "hi" true "" true "" false true "" "nope2" "x" false
      rfl).2.2.2 rfl⟩

/-- C9: a successful `create_client` issued while a session is already
active overwrites the client and drain-task references with fresh ones and
writes the single success response; the prior drain task is not cancelled,
the prior client is not disconnected, and the pending futures are left
exactly as they were. -/
theorem C9_second_create_client_replaces_without_cleanup (s : WrapperState) (c : Nat)
    (setupErr connectErr queryErr : String) (queryOk : Bool)
    ( _hactive : s.client = some c) :
    handle_create_client s true setupErr true connectErr false queryOk queryErr =
      ({ s with client := some s.next_handle, receive_task := some (s.next_handle + 1), next_handle := s.next_handle + 2 },
       [Event.response "create_client"]) := by
  simp [handle_create_client]

/-- C9 witness: a second `create_client` over the active session of
`twoPendingState`, whose pending invocations survive untouched. -/
theorem C9_second_create_client_replaces_without_cleanup_witness :
    handle_create_client twoPendingState true "" true "" false true "" =
      ({ twoPendingState with client := some twoPendingState.next_handle, receive_task := some (twoPendingState.next_handle + 1), next_handle := twoPendingState.next_handle + 2 },
       [Event.response "create_client"]) :=
  C9_second_create_client_replaces_without_cleanup twoPendingState 0 "" "" "" true rfl

/-- Computation rule: a success response is not a session event. -/
theorem isSessionEvent_response (c : String) : isSessionEvent (Event.response c) = false := rfl

/-- Computation rule: an error event is not a session event. -/
theorem isSessionEvent_error (c : Option String) (m : String) :
    isSessionEvent (Event.error c m) = false := rfl

/-- Computation rule: the `create_client` success response is the response
to the `create_client` command. -/
theorem isCreateClientResp_response :
    isCreateClientResp (Event.response "create_client") = true := rfl

/-- Computation rule: a `create_client` error event is the response to the
`create_client` command. -/
theorem isCreateClientResp_error (m : String) :
    isCreateClientResp (Event.error (some "create_client") m) = true := rfl

/-- An element of a `takeWhile` is an element of the list. -/
theorem mem_of_mem_takeWhileResp :
    ∀ (l : List Event) (e : Event),
      e ∈ (l.takeWhile fun x => !isCreateClientResp x) → e ∈ l := by
  intro l
  induction l with
  | nil =>
    intro e he
    exact absurd he (List.not_mem_nil e)
  | cons a t ih =>
    intro e he
    rw [List.takeWhile_cons] at he
    by_cases hp : (!isCreateClientResp a) = true
    · rw [if_pos hp] at he
      rcases List.mem_cons.mp he with he | he
      · exact he ▸ List.mem_cons_self a t
      · exact List.mem_cons_of_mem a (ih e he)
    · rw [if_neg hp] at he
      exact absurd he (List.not_mem_nil e)

/-- An element of the `takeWhile` of an appended list is in the `takeWhile`
of the first part or in the second part. -/
theorem takeWhileMemSplitResp :
    ∀ (l₁ l₂ : List Event) (e : Event),
      e ∈ ((l₁ ++ l₂).takeWhile fun x => !isCreateClientResp x) →
      e ∈ (l₁.takeWhile fun x => !isCreateClientResp x) ∨ e ∈ l₂ := by
  intro l₁
  induction l₁ with
  | nil =>
    intro l₂ e he
    exact Or.inr (mem_of_mem_takeWhileResp l₂ e he)
  | cons a t ih =>
    intro l₂ e he
    rw [List.cons_append, List.takeWhile_cons] at he
    by_cases hp : (!isCreateClientResp a) = true
    · rw [if_pos hp] at he
      rw [List.takeWhile_cons, if_pos hp]
      rcases List.mem_cons.mp he with he | he
      · exact Or.inl (he ▸ List.mem_cons_self a _)
      · rcases ih l₂ e he with hm | hm
        · exact Or.inl (List.mem_cons_of_mem a hm)
        · exact Or.inr hm
    · rw [if_neg hp] at he
      exact absurd he (List.not_mem_nil e)

/-- Once a list already holds a `create_client` response, appending further
events does not extend the `takeWhile` stopping at that response. -/
theorem takeWhile_append_stop_resp :
    ∀ (l₁ l₂ : List Event), l₁.any isCreateClientResp = true →
      ((l₁ ++ l₂).takeWhile fun x => !isCreateClientResp x) =
        (l₁.takeWhile fun x => !isCreateClientResp x) := by
  intro l₁
  induction l₁ with
  | nil =>
    intro l₂ h
    simp at h
  | cons a t ih =>
    intro l₂ h
    rw [List.cons_append, List.takeWhile_cons, List.takeWhile_cons]
    by_cases hp : isCreateClientResp a = true
    · have hc : ¬ ((!isCreateClientResp a) = true) := by simp [hp]
      rw [if_neg hc, if_neg hc]
    · have ha : isCreateClientResp a = false := Bool.not_eq_true _ ▸ eq_false_of_ne_true hp
      have ht : t.any isCreateClientResp = true := by
        simp only [List.any_cons, ha, Bool.false_or] at h
        exact h
      have hc : (!isCreateClientResp a) = true := by simp [ha]
      rw [if_pos hc, if_pos hc, ih l₂ ht]

/-- Every segment `handle_create_client` can run writes no session events,
and any segment that starts the drain task also writes the `create_client`
response. -/
theorem ccMainSegs_ok (so : Bool) (se : String) (co : Bool) (ce : String)
    (hp qo : Bool) (qe : String) :
    ∀ seg ∈ ccMainSegs so se co ce hp qo qe,
      ((seg.emits.all fun e => !isSessionEvent e) = true ∧
       (seg.spawns = true → seg.emits.any isCreateClientResp = true)) := by
  cases so <;> cases co <;> cases hp <;> cases qo <;>
    simp [ccMainSegs, isSessionEvent_response, isSessionEvent_error,
      isCreateClientResp_response, isCreateClientResp_error]

/-- One scheduler step preserves the C8 invariant. -/
theorem stepTask_preserves_inv (b : Bool) (st : RunState) (h : RunInv st) :
    RunInv (stepTask b st) := by
  obtain ⟨ms, sp, ds, out⟩ := st
  obtain ⟨h1, h2, h3⟩ := h
  cases b with
  | true =>
    cases ms with
    | nil => exact ⟨h1, h2, h3⟩
    | cons seg rest =>
      have hseg := h3 seg (List.mem_cons_self seg rest)
      refine ⟨?_, ?_, ?_⟩
      · show (((out ++ seg.emits).takeWhile fun x => !isCreateClientResp x).all
          fun e => !isSessionEvent e) = true
        rw [List.all_eq_true]
        intro e he
        rcases takeWhileMemSplitResp out seg.emits e he with hm | hm
        · exact List.all_eq_true.mp h1 e hm
        · exact List.all_eq_true.mp hseg.1 e hm
      · intro hsp
        have hsp2 : (sp || seg.spawns) = true := hsp
        show (out ++ seg.emits).any isCreateClientResp = true
        rw [List.any_append]
        rcases Bool.or_eq_true_iff.mp hsp2 with hx | hx
        · rw [h2 hx]
          rfl
        · rw [hseg.2 hx]
          simp
      · intro seg2 hs2
        exact h3 seg2 (List.mem_cons_of_mem seg hs2)
  | false =>
    cases sp with
    | false => exact ⟨h1, h2, h3⟩
    | true =>
      cases ds with
      | nil => exact ⟨h1, h2, h3⟩
      | cons es rest =>
        refine ⟨?_, ?_, ?_⟩
        · show (((out ++ es).takeWhile fun x => !isCreateClientResp x).all
            fun e => !isSessionEvent e) = true
          rw [takeWhile_append_stop_resp out es (h2 rfl)]
          exact h1
        · intro _
          show (out ++ es).any isCreateClientResp = true
          rw [List.any_append, h2 rfl]
          rfl
        · exact h3

/-- A whole schedule preserves the C8 invariant. -/
theorem runSched_preserves_inv (sched : List Bool) :
    ∀ (st : RunState), RunInv st → RunInv (runSched sched st) := by
  induction sched with
  | nil =>
    intro st h
    exact h
  | cons b bs ih =>
    intro st h
    exact ih (stepTask b st) (stepTask_preserves_inv b st h)

/-- C8: in the cooperative interleaving of one `create_client` with the
drain task it starts, the output stream never carries a session event
(translated message or tool invocation) before the single response-or-error
event of the `create_client` command: whatever the schedule, the drain
segments and the call outcomes, everything in the output up to the first
`create_client` response-class event is a non-session event. -/
theorem C8_no_session_event_before_create_client_response (sched : List Bool)
    (ds : List (List Event)) (so : Bool) (se : String) (co : Bool) (ce : String)
    (hp qo : Bool) (qe : String) :
    (((runSched sched
        { mainSegs := ccMainSegs so se co ce hp qo qe, spawned := false,
          drainSegs := ds, out := [] }).out.takeWhile
        fun x => !isCreateClientResp x).all fun e => !isSessionEvent e) = true := by
  have hinv : RunInv { mainSegs := ccMainSegs so se co ce hp qo qe, spawned := false, drainSegs := ds, out := [] } := by
    refine ⟨by simp, by simp, ?_⟩
    exact ccMainSegs_ok so se co ce hp qo qe
  exact (runSched_preserves_inv sched _ hinv).1

/-- C10: a content block that is none of text, tool-use and tool-result is
silently omitted: the emitted message event is the same as if the block were
absent, the translation of such a block is no content item at all, and the
translation of an assistant message never writes an error event. -/
theorem C10_unrecognized_blocks_dropped (pre post : List Block) (kind : String)
    (blocks : List Block) :
    assistantMessageEvents (pre ++ Block.other kind :: post) =
      assistantMessageEvents (pre ++ post) ∧
    translateBlock (Block.other kind) = none ∧
    ((assistantMessageEvents blocks).all fun e => !isErrorEvent e) = true := by
  refine ⟨?_, rfl, ?_⟩
  · simp [assistantMessageEvents, translateBlock]
  · simp [assistantMessageEvents, isErrorEvent]

end Wrapper
